import Mathlib

/-!
Verification of the procurement request application core against its
specification.  The TypeScript handlers are shallowly embedded as pure Lean
functions over an explicit database state:

* Postgres `numeric(10,2)` monetary columns are embedded as integer numbers of
  cents (`Int`); e.g. the price `5.99` is the integer `599`.  The string
  round-trips through `toString`/`parseFloat` in the handlers are identity on
  this representation and are noted where the JavaScript truthiness of the
  value matters (`x ? e1 : e2` is falsy exactly on the number `0` and on
  `null`/`undefined`).
* Timestamps are embedded as `Nat` ticks; `new Date()` becomes an explicit
  `now` parameter.
* A thrown `Error` becomes an `Except` error value; each constructor mirrors
  one `throw` site of the handler and carries the data interpolated into the
  message.
* TypeScript optional-and-nullable payload fields (`undefined` vs `null` vs
  value) are embedded as `Option (Option α)`: `none` is absent/undefined,
  `some none` is an explicit null, `some (some v)` is a value.
-/

namespace Procurement

/-- Enum `user_role` from the Drizzle schema. -/
inductive Role where
  | super_admin
  | manager
  | staff
deriving DecidableEq, BEq

/-- Enum `request_status` from the Drizzle schema. -/
inductive Status where
  | pending
  | manager_approved
  | manager_rejected
  | admin_processing
  | purchased
  | received
  | cancelled
deriving DecidableEq, BEq

/-- Row of the `users` table (fields consumed by the core handlers). -/
structure User where
  id : Nat
  email : String
  name : String
  role : Role
  is_active : Bool
deriving DecidableEq

/-- Row of the `categories` table. -/
structure Category where
  id : Nat
  name : String
  description : Option String
  is_active : Bool
deriving DecidableEq

/-- Row of the `items` table; `estimated_price` is `numeric(10,2)`, nullable,
embedded as cents. -/
structure Item where
  id : Nat
  name : String
  description : Option String
  category_id : Nat
  unit : String
  estimated_price : Option Int
  is_active : Bool
deriving DecidableEq

/-- Row of the `requests` table. -/
structure Request where
  id : Nat
  staff_id : Nat
  title : String
  justification : Option String
  status : Status
  manager_id : Option Nat
  manager_notes : Option String
  admin_id : Option Nat
  admin_notes : Option String
  total_estimated_cost : Option Int
  actual_cost : Option Int
  purchase_date : Option Nat
  received_date : Option Nat
  created_at : Nat
  updated_at : Nat
deriving DecidableEq

/-- Row of the `request_items` table. -/
structure RequestItem where
  id : Nat
  request_id : Nat
  item_id : Nat
  quantity : Nat
  estimated_unit_cost : Option Int
  actual_unit_cost : Option Int
  notes : Option String
  created_at : Nat
deriving DecidableEq

/-- The persistent database state shared by all handlers. -/
structure DB where
  users : List User
  categories : List Category
  items : List Item
  requests : List Request
  request_items : List RequestItem
deriving DecidableEq

/-- Embeds `SELECT * FROM users WHERE id = uid` (first row). -/
def findUser (db : DB) (uid : Nat) : Option User :=
  db.users.find? (fun u => u.id == uid)

/-- Embeds `SELECT * FROM requests WHERE id = rid` (first row). -/
def findRequest (db : DB) (rid : Nat) : Option Request :=
  db.requests.find? (fun r => r.id == rid)

/-- Embeds `SELECT * FROM items WHERE id = iid` (first row). -/
def findItem (db : DB) (iid : Nat) : Option Item :=
  db.items.find? (fun it => it.id == iid)

/-- Embeds `SELECT * FROM categories WHERE id = cid` (first row). -/
def findCategory (db : DB) (cid : Nat) : Option Category :=
  db.categories.find? (fun c => c.id == cid)

/-- Next value of the `serial` primary key of `requests`: one past the
largest id in the table. -/
def nextRequestId (db : DB) : Nat :=
  (db.requests.map (fun r => r.id)).foldr Nat.max 0 + 1

/-- Next value of the `serial` primary key of `request_items`. -/
def nextRequestItemId (db : DB) : Nat :=
  (db.request_items.map (fun ri => ri.id)).foldr Nat.max 0 + 1

/-- Embeds `UPDATE requests SET ... WHERE id = rid`: every row whose id matches
is replaced by `upd`. -/
def updateRequest (db : DB) (rid : Nat) (upd : Request) : DB :=
  { db with requests := db.requests.map (fun r => if r.id = rid then upd else r) }

/-- JavaScript `s || null` on a nullable/optional string: the empty string is
falsy and collapses to null. -/
def jsStrOrNull : Option String → Option String
  | some s => if s = "" then none else some s
  | none => none

/-! ## createRequest (src/unnamed/part_006) -/

/-- One entry of `CreateRequestInput.items`. -/
structure CreateRequestItemInput where
  item_id : Nat
  quantity : Nat
  notes : Option String
deriving DecidableEq

/-- Input of `createRequest`. -/
structure CreateRequestInput where
  staff_id : Nat
  title : String
  justification : Option String
  items : List CreateRequestItemInput
deriving DecidableEq

/-- The two `throw` sites of `createRequest`:
`Staff user not found or inactive` and `One or more items not found or inactive`. -/
inductive CreateErr where
  | staffNotFound
  | itemsNotFound
deriving DecidableEq

/-- Embeds `itemPriceMap.get(iid)`: the JavaScript `Map` built from the found items
keeps the last entry for a duplicated key; `none` is a missing key
(undefined), `some p` the stored `estimated_price` (itself nullable). -/
def itemPriceMapGet (items : List Item) (iid : Nat) : Option (Option Int) :=
  (items.reverse.find? (fun it => it.id == iid)).map (fun it => it.estimated_price)

/-- Embeds `SELECT * FROM items WHERE id IN itemIds AND is_active` — the rows
of the items table matching the requested ids. -/
def foundActiveItems (db : DB) (itemIds : List Nat) : List Item :=
  db.items.filter (fun it => itemIds.contains it.id && it.is_active)

/-- Embeds `hasAllPrices`: every line item's looked-up price is present and non-null
(`price !== null && price !== undefined`). -/
def hasAllPrices (items : List Item) (lineItems : List CreateRequestItemInput) : Bool :=
  lineItems.all (fun ri =>
    match itemPriceMapGet items ri.item_id with
    | some (some _) => true
    | _ => false)

/-- The reduce computing `totalEstimatedCost`: `total + price * quantity`
over the input line items (the non-null assertion `get(...)!` is embedded as
`getD 0`, only reached under `hasAllPrices`). -/
def totalOfLineItems (items : List Item) (lineItems : List CreateRequestItemInput) : Int :=
  lineItems.foldl
    (fun total ri => total + ((itemPriceMapGet items ri.item_id).join.getD 0) * ri.quantity) 0

/-- The request row inserted by `createRequest`.  The stored
`total_estimated_cost` is `totalEstimatedCost ? totalEstimatedCost.toString() : null`:
the number `0` is falsy in JavaScript, so a computed total of zero is stored
as null. -/
def createRequestRow (db : DB) (input : CreateRequestInput) (now : Nat) : Request :=
  let items := foundActiveItems db (input.items.map (fun ri => ri.item_id))
  let totalEstimatedCost : Option Int :=
    if hasAllPrices items input.items then some (totalOfLineItems items input.items) else none
  { id := nextRequestId db
    staff_id := input.staff_id
    title := input.title
    justification := jsStrOrNull input.justification
    status := .pending
    manager_id := none
    manager_notes := none
    admin_id := none
    admin_notes := none
    total_estimated_cost :=
      match totalEstimatedCost with
      | some t => if t = 0 then none else some t
      | none => none
    actual_cost := none
    purchase_date := none
    received_date := none
    created_at := now
    updated_at := now }

/-- The line-item rows inserted by `createRequest`.  The snapshot
`itemPriceMap.get(id)?.toString() || null` collapses a missing or null map
entry to null and otherwise stores the price (the string of the number `0` is
truthy, so a zero price is kept). -/
def createRequestLineItems (db : DB) (input : CreateRequestInput) (now : Nat) :
    List RequestItem :=
  let items := foundActiveItems db (input.items.map (fun ri => ri.item_id))
  let rid := nextRequestId db
  let base := nextRequestItemId db
  input.items.enum.map (fun p =>
    { id := base + p.1
      request_id := rid
      item_id := p.2.item_id
      quantity := p.2.quantity
      estimated_unit_cost := (itemPriceMapGet items p.2.item_id).join
      actual_unit_cost := none
      notes := jsStrOrNull p.2.notes
      created_at := now })

/-- Embeds `createRequest` (src/unnamed/part_006): validates the staff user and the
referenced items, computes the estimated total, inserts the request row and
then the line-item rows, and returns the created request. -/
def createRequest (db : DB) (input : CreateRequestInput) (now : Nat) :
    Except CreateErr (DB × Request) :=
  match db.users.find? (fun u => u.id == input.staff_id && u.is_active) with
  | none => .error .staffNotFound
  | some _ =>
    let itemIds := input.items.map (fun ri => ri.item_id)
    let items := foundActiveItems db itemIds
    if items.length = itemIds.length then
      let req := createRequestRow db input now
      let newItems := createRequestLineItems db input now
      .ok ({ db with
              requests := db.requests ++ [req]
              request_items := db.request_items ++ newItems }, req)
    else .error .itemsNotFound

/-- The persisted state when the line-items `INSERT` of `createRequest` (the
second statement) throws after the request `INSERT` has already executed.
The source issues the two inserts as separate auto-committed statements with
no enclosing transaction, and its catch block only logs and rethrows, so the
request row from the first insert is not rolled back; when a validation check
fails earlier, no insert has run and the state is unchanged. -/
def createRequestItemsInsertFailureDB (db : DB) (input : CreateRequestInput) (now : Nat) :
    DB :=
  match createRequest db input now with
  | .error _ => db
  | .ok _ => { db with requests := db.requests ++ [createRequestRow db input now] }

/-! ## managerActionOnRequest (src/server/src/handlers/manager_action_on_request.ts) -/

/-- Manager decision. -/
inductive ManagerAction where
  | approve
  | reject
deriving DecidableEq

/-- Input of `managerActionOnRequest`. -/
structure ManagerActionInput where
  request_id : Nat
  manager_id : Nat
  action : ManagerAction
  notes : Option String
deriving DecidableEq

/-- The three `throw` sites of `managerActionOnRequest`. -/
inductive ManagerErr where
  | requestNotFound (rid : Nat)
  | notPending (rid : Nat) (st : Status)
  | managerNotFound (mid : Nat)
deriving DecidableEq

/-- Embeds `managerActionOnRequest`: checks the request exists and is pending, checks
the acting user is an active manager, then records the decision. -/
def managerActionOnRequest (db : DB) (input : ManagerActionInput) (now : Nat) :
    Except ManagerErr (DB × Request) :=
  match findRequest db input.request_id with
  | none => .error (.requestNotFound input.request_id)
  | some request =>
    if request.status = .pending then
      match db.users.find? (fun u =>
          u.id == input.manager_id && u.role == Role.manager && u.is_active) with
      | none => .error (.managerNotFound input.manager_id)
      | some _ =>
        let newStatus : Status :=
          if input.action = .approve then .manager_approved else .manager_rejected
        let updated : Request :=
          { request with
              status := newStatus
              manager_id := some input.manager_id
              manager_notes := jsStrOrNull input.notes
              updated_at := now }
        .ok (updateRequest db input.request_id updated, updated)
    else .error (.notPending input.request_id request.status)

/-! ## adminProcessRequest (src/unnamed/part_004) -/

/-- Admin processing action. -/
inductive AdminAction where
  | start_processing
  | mark_purchased
  | mark_received
  | cancel
deriving DecidableEq

/-- Input of `adminProcessRequest`; `notes`, `actual_cost`, `purchase_date`
and `received_date` distinguish absent (`none`) from explicit null
(`some none`). -/
structure AdminProcessInput where
  request_id : Nat
  admin_id : Nat
  action : AdminAction
  notes : Option (Option String)
  actual_cost : Option (Option Int)
  purchase_date : Option (Option Nat)
  received_date : Option (Option Nat)
deriving DecidableEq

/-- The `throw` sites of `adminProcessRequest`. -/
inductive AdminErr where
  | adminNotFound
  | notSuperAdmin
  | requestNotFound
  | invalidState (action : AdminAction) (st : Status)
deriving DecidableEq

/-- The `validTransitions` record: statuses without a key (`pending`,
`manager_rejected`) fall through `validTransitions[status] || []` to the
empty action list. -/
def validTransitions : Status → List AdminAction
  | .manager_approved => [.start_processing, .cancel]
  | .admin_processing => [.mark_purchased, .cancel]
  | .purchased => [.mark_received, .cancel]
  | .received => []
  | .cancelled => []
  | .pending => []
  | .manager_rejected => []

/-- The `switch (input.action)` computing the new status. -/
def adminActionTarget : AdminAction → Status
  | .start_processing => .admin_processing
  | .mark_purchased => .purchased
  | .mark_received => .received
  | .cancel => .cancelled

/-- Name of an admin action as interpolated into error messages. -/
def adminActionName : AdminAction → String
  | .start_processing => "start_processing"
  | .mark_purchased => "mark_purchased"
  | .mark_received => "mark_received"
  | .cancel => "cancel"

/-- Name of a status as interpolated into error messages. -/
def statusName : Status → String
  | .pending => "pending"
  | .manager_approved => "manager_approved"
  | .manager_rejected => "manager_rejected"
  | .admin_processing => "admin_processing"
  | .purchased => "purchased"
  | .received => "received"
  | .cancelled => "cancelled"

/-- Message of each thrown error (the quote characters around the
interpolated names are elided). -/
def adminErrMessage : AdminErr → String
  | .adminNotFound => "Admin user not found"
  | .notSuperAdmin => "Only Super Admin can process requests"
  | .requestNotFound => "Request not found"
  | .invalidState a st =>
      "Cannot perform action " ++ adminActionName a ++
        " on request with status " ++ statusName st

/-- Embeds `adminProcessRequest` (src/unnamed/part_004): checks the acting user
exists and is a super admin, looks up the request, validates the
status/action pair against `validTransitions`, and applies the update.
Optional payload fields overwrite the stored field only when present
(`input.x !== undefined`). -/
def adminProcessRequest (db : DB) (input : AdminProcessInput) (now : Nat) :
    Except AdminErr (DB × Request) :=
  match findUser db input.admin_id with
  | none => .error .adminNotFound
  | some adminUser =>
    if adminUser.role = .super_admin then
      match findRequest db input.request_id with
      | none => .error .requestNotFound
      | some request =>
        if input.action ∈ validTransitions request.status then
          let updated : Request :=
            { request with
                status := adminActionTarget input.action
                admin_id := some input.admin_id
                updated_at := now
                admin_notes :=
                  match input.notes with
                  | some v => v
                  | none => request.admin_notes
                actual_cost :=
                  match input.actual_cost with
                  | some v => v
                  | none => request.actual_cost
                purchase_date :=
                  match input.purchase_date with
                  | some v => v
                  | none => request.purchase_date
                received_date :=
                  match input.received_date with
                  | some v => v
                  | none => request.received_date }
          .ok (updateRequest db input.request_id updated, updated)
        else .error (.invalidState input.action request.status)
    else .error .notSuperAdmin

/-! ## Operation-level semantics

A failed handler throws before (or instead of) its write, so the persistent
state is unchanged; a successful handler commits its writes.  `applyOp` is
the state seen after one call. -/

/-- One core mutation call. -/
inductive Op where
  | create (input : CreateRequestInput) (now : Nat)
  | manager (input : ManagerActionInput) (now : Nat)
  | admin (input : AdminProcessInput) (now : Nat)

/-- State after one call: the new state on success, the old one on error. -/
def applyOp (db : DB) : Op → DB
  | .create input now =>
    match createRequest db input now with
    | .ok (db2, _) => db2
    | .error _ => db
  | .manager input now =>
    match managerActionOnRequest db input now with
    | .ok (db2, _) => db2
    | .error _ => db
  | .admin input now =>
    match adminProcessRequest db input now with
    | .ok (db2, _) => db2
    | .error _ => db

/-- State after a sequence of calls. -/
def runOps (db : DB) (ops : List Op) : DB :=
  ops.foldl applyOp db

/-! ## getStaffRequests (src/unnamed/part_000) -/

/-- A line item hydrated with its item and the item's category
(`request_items INNER JOIN items INNER JOIN categories`). -/
structure HydratedRequestItem where
  base : RequestItem
  item : Item
  category : Category
deriving DecidableEq

/-- The hydrated view returned by the query layer: the request row together
with its staff/manager/admin user projections and its joined line items. -/
structure RequestWithDetails where
  base : Request
  staff : User
  manager : Option User
  admin : Option User
  items : List HydratedRequestItem
deriving DecidableEq

/-- The single `throw` site of `getStaffRequests`. -/
inductive StaffReqErr where
  | staffNotFound (sid : Nat)
deriving DecidableEq

/-- The joined line items of one request.  The inner joins drop a row whose
item or category is missing. -/
def hydrateRequestItems (db : DB) (rid : Nat) : List HydratedRequestItem :=
  db.request_items.filterMap (fun ri =>
    if ri.request_id = rid then
      (findItem db ri.item_id).bind (fun it =>
        (findCategory db it.category_id).map (fun c =>
          { base := ri, item := it, category := c }))
    else none)

/-- Embeds `ORDER BY created_at DESC`. -/
def byCreatedAtDesc (a b : Request) : Prop :=
  b.created_at ≤ a.created_at

instance : DecidableRel byCreatedAtDesc :=
  fun a b => inferInstanceAs (Decidable (b.created_at ≤ a.created_at))

instance : IsTotal Request byCreatedAtDesc :=
  ⟨fun a b => Nat.le_total b.created_at a.created_at⟩

instance : IsTrans Request byCreatedAtDesc :=
  ⟨fun _ _ _ hab hbc => le_trans hbc hab⟩

/-- Embeds `getStaffRequests` (src/unnamed/part_000): errors if the staff id does
not resolve to a user; otherwise returns the staff member's requests ordered
by `created_at` descending, each hydrated with its user projections and
joined line items. -/
def getStaffRequests (db : DB) (staffId : Nat) :
    Except StaffReqErr (List RequestWithDetails) :=
  match findUser db staffId with
  | none => .error (.staffNotFound staffId)
  | some staff =>
    let requests :=
      ((db.requests.filter (fun r => r.staff_id == staffId)).insertionSort byCreatedAtDesc)
    .ok (requests.map (fun r =>
      { base := r
        staff := staff
        manager := r.manager_id.bind (fun mid => findUser db mid)
        admin := r.admin_id.bind (fun aid => findUser db aid)
        items := hydrateRequestItems db r.id }))

/-! ## getReports topCategories (src/server/src/handlers/get_reports.ts) -/

/-- One entry of `getReports().topCategories`. -/
structure TopCategoryEntry where
  categoryName : String
  requestCount : Nat
  totalAmount : Int
deriving DecidableEq

/-- One row of
`requests INNER JOIN request_items INNER JOIN items INNER JOIN categories`. -/
structure ReportJoinRow where
  category_id : Nat
  categoryName : String
  request_id : Nat
  actual_cost : Option Int
deriving DecidableEq

/-- The joined rows the `topCategories` aggregation groups over: one row per
line item whose request, item and category all resolve. -/
def reportJoinRows (db : DB) : List ReportJoinRow :=
  db.request_items.filterMap (fun ri =>
    (findRequest db ri.request_id).bind (fun r =>
      (findItem db ri.item_id).bind (fun it =>
        (findCategory db it.category_id).map (fun c =>
          { category_id := c.id
            categoryName := c.name
            request_id := r.id
            actual_cost := r.actual_cost }))))

/-- First-occurrence deduplication, with an accumulator of already-seen
values. -/
def dedupNatAux : List Nat → List Nat → List Nat
  | [], _ => []
  | x :: xs, seen =>
    if x ∈ seen then dedupNatAux xs seen else x :: dedupNatAux xs (x :: seen)

/-- First-occurrence deduplication of a list of ids. -/
def dedupNat (l : List Nat) : List Nat :=
  dedupNatAux l []

/-- The aggregation for one category group:
`count(distinct requests.id)` and `coalesce(sum(requests.actual_cost), 0)`,
the SQL `sum` skipping null values and running over the joined rows (one per
line item, not one per distinct request). -/
def categoryStat (db : DB) (cid : Nat) : TopCategoryEntry :=
  let rows := (reportJoinRows db).filter (fun row => row.category_id == cid)
  { categoryName := ((findCategory db cid).map (fun c => c.name)).getD ""
    requestCount := (dedupNat (rows.map (fun row => row.request_id))).length
    totalAmount := rows.foldl (fun s row => s + row.actual_cost.getD 0) 0 }

/-- Embeds `ORDER BY count(distinct requests.id) DESC`. -/
def byRequestCountDesc (a b : TopCategoryEntry) : Prop :=
  b.requestCount ≤ a.requestCount

instance : DecidableRel byRequestCountDesc :=
  fun a b => inferInstanceAs (Decidable (b.requestCount ≤ a.requestCount))

instance : IsTotal TopCategoryEntry byRequestCountDesc :=
  ⟨fun a b => Nat.le_total b.requestCount a.requestCount⟩

instance : IsTrans TopCategoryEntry byRequestCountDesc :=
  ⟨fun _ _ _ hab hbc => le_trans hbc hab⟩

/-- The `topCategories` field of `getReports()`: per-category aggregation
over the joined rows, ordered by distinct-request count descending,
`LIMIT 5`. -/
def getReportsTopCategories (db : DB) : List TopCategoryEntry :=
  ((((dedupNat ((reportJoinRows db).map (fun row => row.category_id))).map
      (categoryStat db)).insertionSort byRequestCountDesc).take 5)

/-! ## Specification-side definitions (for refinement comparisons) -/

/-- Transition table as enumerated by the specification:
manager_approved admits start_processing and cancel, admin_processing admits
mark_purchased and cancel, purchased admits mark_received and cancel, and no
other (status, action) pair is admitted. -/
def specAdminTransitionPairs : List (Status × AdminAction) :=
  [(.manager_approved, .start_processing), (.manager_approved, .cancel),
   (.admin_processing, .mark_purchased), (.admin_processing, .cancel),
   (.purchased, .mark_received), (.purchased, .cancel)]

/-- Sum of snapshot unit cost times quantity over a list of persisted line
items (the quantity of the specification's `unit_cost × quantity`). -/
def snapshotTotal (l : List RequestItem) : Int :=
  l.foldl (fun s ri => s + ri.estimated_unit_cost.getD 0 * (ri.quantity : Int)) 0

/-! ## Concrete databases and inputs used by witnesses and counterexamples -/

/-- Catalog with items priced 5.99 and 12.50 and one active staff user. -/
def c9db : DB :=
  { users := [{ id := 1, email := "s", name := "Staff", role := .staff, is_active := true }]
    categories := [{ id := 1, name := "General", description := none, is_active := true }]
    items :=
      [{ id := 1, name := "A", description := none, category_id := 1, unit := "piece",
         estimated_price := some 599, is_active := true },
       { id := 2, name := "B", description := none, category_id := 1, unit := "piece",
         estimated_price := some 1250, is_active := true }]
    requests := []
    request_items := [] }

/-- Round-trip request: 10 of the 5.99 item and 2 of the 12.50 item. -/
def c9input : CreateRequestInput :=
  { staff_id := 1, title := "Round trip", justification := none,
    items := [{ item_id := 1, quantity := 10, notes := none },
              { item_id := 2, quantity := 2, notes := none }] }

/-- Result of the round-trip creation. -/
def c9out : Except CreateErr (DB × Request) := createRequest c9db c9input 0

/-- Database component of that result. -/
def c9db2 : DB :=
  match c9out with
  | .ok p => p.1
  | .error _ => c9db

/-- Request component of that result. -/
def c9req : Request :=
  match c9out with
  | .ok p => p.2
  | .error _ => createRequestRow c9db c9input 0

/-- Catalog with a single active item whose price is 0.00 (non-null). -/
def c3db : DB :=
  { users := [{ id := 1, email := "s", name := "Staff", role := .staff, is_active := true }]
    categories := [{ id := 1, name := "General", description := none, is_active := true }]
    items := [{ id := 1, name := "Free", description := none, category_id := 1, unit := "piece",
                estimated_price := some 0, is_active := true }]
    requests := []
    request_items := [] }

/-- Request for one unit of the zero-priced item. -/
def c3input : CreateRequestInput :=
  { staff_id := 1, title := "Zero", justification := none,
    items := [{ item_id := 1, quantity := 1, notes := none }] }

/-- Request for two units of the 5.99 item (nonzero total 11.98). -/
def c3winput : CreateRequestInput :=
  { staff_id := 1, title := "Nonzero", justification := none,
    items := [{ item_id := 1, quantity := 2, notes := none }] }

/-- Database of the atomicity scenario (same shape as the round-trip one). -/
def c4db : DB :=
  { users := [{ id := 1, email := "s", name := "Staff", role := .staff, is_active := true }]
    categories := [{ id := 1, name := "General", description := none, is_active := true }]
    items := [{ id := 1, name := "A", description := none, category_id := 1, unit := "piece",
                estimated_price := some 599, is_active := true }]
    requests := []
    request_items := [] }

/-- Valid creation input whose line-items insert is made to fail. -/
def c4input : CreateRequestInput :=
  { staff_id := 1, title := "Doomed", justification := none,
    items := [{ item_id := 1, quantity := 3, notes := none }] }

/-- Catalog with one active item and an active staff user. -/
def c5db : DB :=
  { users := [{ id := 1, email := "s", name := "Staff", role := .staff, is_active := true }]
    categories := [{ id := 1, name := "General", description := none, is_active := true }]
    items := [{ id := 1, name := "A", description := none, category_id := 1, unit := "piece",
                estimated_price := some 100, is_active := true }]
    requests := []
    request_items := [] }

/-- Two line items referencing the same (active) item id. -/
def c5input : CreateRequestInput :=
  { staff_id := 1, title := "Dup", justification := none,
    items := [{ item_id := 1, quantity := 1, notes := none },
              { item_id := 1, quantity := 2, notes := none }] }

/-- Single line item on the active item (distinct ids, all resolving). -/
def c5winput : CreateRequestInput :=
  { staff_id := 1, title := "Ok", justification := none,
    items := [{ item_id := 1, quantity := 4, notes := none }] }

/-- Database with an inactive super_admin user and a manager_approved
request. -/
def c7db : DB :=
  { users := [{ id := 1, email := "a", name := "Admin", role := .super_admin,
                is_active := false }]
    categories := []
    items := []
    requests := [{ id := 1, staff_id := 2, title := "T", justification := none,
                   status := .manager_approved, manager_id := some 3, manager_notes := none,
                   admin_id := none, admin_notes := none, total_estimated_cost := none,
                   actual_cost := none, purchase_date := none, received_date := none,
                   created_at := 0, updated_at := 0 }]
    request_items := [] }

/-- Input: start_processing by the inactive super_admin. -/
def c7input : AdminProcessInput :=
  { request_id := 1, admin_id := 1, action := .start_processing,
    notes := none, actual_cost := none, purchase_date := none, received_date := none }

/-- Empty database. -/
def c7wdb : DB :=
  { users := [], categories := [], items := [], requests := [], request_items := [] }

/-- Manager-approved request used by the admin-processing scenarios. -/
def c1req : Request :=
  { id := 1, staff_id := 2, title := "T", justification := none,
    status := .manager_approved, manager_id := some 3, manager_notes := none,
    admin_id := none, admin_notes := none, total_estimated_cost := none,
    actual_cost := none, purchase_date := none, received_date := none,
    created_at := 0, updated_at := 0 }

/-- Database with an active super_admin and a manager_approved request. -/
def c1db : DB :=
  { users := [{ id := 1, email := "a", name := "Admin", role := .super_admin,
                is_active := true }]
    categories := []
    items := []
    requests := [c1req]
    request_items := [] }

/-- Input: mark_purchased attempted directly from manager_approved (not in
the table). -/
def c1input : AdminProcessInput :=
  { request_id := 1, admin_id := 1, action := .mark_purchased,
    notes := none, actual_cost := none, purchase_date := none, received_date := none }

/-- Input: cancel with an actual_cost supplied in the payload. -/
def c10input : AdminProcessInput :=
  { request_id := 1, admin_id := 1, action := .cancel,
    notes := none, actual_cost := some (some 2599), purchase_date := none,
    received_date := none }

/-- Result of cancelling request 1 with an actual_cost in the payload. -/
def c10result : Except AdminErr (DB × Request) := adminProcessRequest c1db c10input 11

/-- Database component of that result. -/
def c10db2 : DB :=
  match c10result with
  | .ok p => p.1
  | .error _ => c1db

/-- Request component of that result. -/
def c10upd : Request :=
  match c10result with
  | .ok p => p.2
  | .error _ => c1req

/-- Request 1, already past the manager gate. -/
def c2req : Request :=
  { id := 1, staff_id := 3, title := "T", justification := none,
    status := .manager_approved, manager_id := some 2,
    manager_notes := some "ok", admin_id := none, admin_notes := none,
    total_estimated_cost := none, actual_cost := none, purchase_date := none,
    received_date := none, created_at := 0, updated_at := 0 }

/-- Database whose only request is already past the manager gate. -/
def c2db : DB :=
  { users := [{ id := 1, email := "a", name := "Admin", role := .super_admin,
                is_active := true },
              { id := 2, email := "m", name := "Mgr", role := .manager, is_active := true }]
    categories := []
    items := []
    requests := [c2req]
    request_items := [] }

/-- An admin action and a (doomed) second manager action on request 1. -/
def c2ops : List Op :=
  [.admin { request_id := 1, admin_id := 1, action := .start_processing, notes := none,
            actual_cost := none, purchase_date := none, received_date := none } 4,
   .manager { request_id := 1, manager_id := 2, action := .approve, notes := some "again" } 5]

/-- One category with a single request of actual cost 10.00 holding two line
items, both of whose items belong to that category. -/
def c6db : DB :=
  { users := []
    categories := [{ id := 1, name := "X", description := none, is_active := true }]
    items :=
      [{ id := 1, name := "I1", description := none, category_id := 1, unit := "u",
         estimated_price := none, is_active := true },
       { id := 2, name := "I2", description := none, category_id := 1, unit := "u",
         estimated_price := none, is_active := true }]
    requests := [{ id := 1, staff_id := 2, title := "T", justification := none,
                   status := .received, manager_id := none, manager_notes := none,
                   admin_id := none, admin_notes := none, total_estimated_cost := none,
                   actual_cost := some 1000, purchase_date := none, received_date := none,
                   created_at := 0, updated_at := 0 }]
    request_items :=
      [{ id := 1, request_id := 1, item_id := 1, quantity := 1, estimated_unit_cost := none,
         actual_unit_cost := none, notes := none, created_at := 0 },
       { id := 2, request_id := 1, item_id := 2, quantity := 1, estimated_unit_cost := none,
         actual_unit_cost := none, notes := none, created_at := 0 }] }

/-- Database with one user (id 1) who has two requests created at ticks 3 and
7, and no user with id 99. -/
def c8db : DB :=
  { users := [{ id := 1, email := "s", name := "Staff", role := .staff, is_active := true },
              { id := 2, email := "t", name := "Idle", role := .staff, is_active := true }]
    categories := []
    items := []
    requests := [{ id := 1, staff_id := 1, title := "Old", justification := none,
                   status := .pending, manager_id := none, manager_notes := none,
                   admin_id := none, admin_notes := none, total_estimated_cost := none,
                   actual_cost := none, purchase_date := none, received_date := none,
                   created_at := 3, updated_at := 3 },
                 { id := 2, staff_id := 1, title := "New", justification := none,
                   status := .pending, manager_id := none, manager_notes := none,
                   admin_id := none, admin_notes := none, total_estimated_cost := none,
                   actual_cost := none, purchase_date := none, received_date := none,
                   created_at := 7, updated_at := 7 }]
    request_items := [] }

/-- Hydrated requests of user 1. -/
def c8list : List RequestWithDetails :=
  match getStaffRequests c8db 1 with
  | .ok l => l
  | .error _ => []

/-! ## Helper lemmas -/

/-- Normal form of adminProcessRequest under a resolved super admin and a
found request. -/
theorem adminProcessRequest_eq_form (db : DB) (input : AdminProcessInput) (now : Nat)
    (adminUser : User) (r : Request)
    (hfu : findUser db input.admin_id = some adminUser)
    (hrole : adminUser.role = Role.super_admin)
    (hfr : findRequest db input.request_id = some r) :
    adminProcessRequest db input now =
      if input.action ∈ validTransitions r.status then
        let updated : Request :=
          { r with
              status := adminActionTarget input.action
              admin_id := some input.admin_id
              updated_at := now
              admin_notes :=
                match input.notes with
                | some v => v
                | none => r.admin_notes
              actual_cost :=
                match input.actual_cost with
                | some v => v
                | none => r.actual_cost
              purchase_date :=
                match input.purchase_date with
                | some v => v
                | none => r.purchase_date
              received_date :=
                match input.received_date with
                | some v => v
                | none => r.received_date }
        .ok (updateRequest db input.request_id updated, updated)
      else .error (.invalidState input.action r.status) := by
  simp only [adminProcessRequest, hfu, hrole, hfr, eq_self_iff_true, if_true]

/-- Membership in the specification's transition table coincides with the
code's validTransitions lookup. -/
theorem mem_specAdminTransitionPairs (st : Status) (a : AdminAction) :
    (st, a) ∈ specAdminTransitionPairs ↔ a ∈ validTransitions st := by
  cases st <;> cases a <;> simp [specAdminTransitionPairs, validTransitions]

/-- Every admitted action moves to a status different from its source. -/
theorem adminActionTarget_ne_source (st : Status) (a : AdminAction)
    (h : a ∈ validTransitions st) : adminActionTarget a ≠ st := by
  cases st <;> cases a <;> revert h <;> decide

/-- No admin action targets the pending status. -/
theorem adminActionTarget_ne_pending (a : AdminAction) :
    adminActionTarget a ≠ Status.pending := by
  cases a <;> decide

/-- A failed admin call leaves the state unchanged. -/
theorem applyOp_admin_error (db : DB) (input : AdminProcessInput) (now : Nat)
    (e : AdminErr) (h : adminProcessRequest db input now = .error e) :
    applyOp db (.admin input now) = db := by
  simp only [applyOp, h]

/-- Found element of a prefix is found in the appended list. -/
theorem find?_append_some {α : Type} (p : α → Bool) {l₁ : List α} (l₂ : List α) {a : α}
    (h : l₁.find? p = some a) : (l₁ ++ l₂).find? p = some a := by
  rw [List.find?_append, h]; rfl

/-- Identifier of a found request matches the searched id. -/
theorem findRequest_id {db : DB} {i : Nat} {r : Request}
    (h : findRequest db i = some r) : r.id = i := by
  have := List.find?_some h
  simpa using this

/-- Lookup after an UPDATE whose row keeps the matched id. -/
theorem findRequest_updateRequest (db : DB) (rid : Nat) (upd : Request)
    (hid : upd.id = rid) (i : Nat) :
    findRequest (updateRequest db rid upd) i =
      (findRequest db i).map (fun r => if r.id = rid then upd else r) := by
  unfold findRequest updateRequest
  rw [List.find?_map]
  have hp : ((fun r : Request => r.id == i) ∘ (fun r => if r.id = rid then upd else r)) =
      (fun r : Request => r.id == i) := by
    funext row
    by_cases h : row.id = rid
    · simp [h, hid]
    · simp [h]
  rw [hp]

/-- Inversion of a successful createRequest. -/
theorem createRequest_ok_inv {db : DB} {input : CreateRequestInput} {now : Nat}
    {db2 : DB} {req : Request}
    (h : createRequest db input now = .ok (db2, req)) :
    req = createRequestRow db input now ∧
      db2 = { db with
        requests := db.requests ++ [createRequestRow db input now]
        request_items := db.request_items ++ createRequestLineItems db input now } := by
  unfold createRequest at h
  split at h
  · exact absurd h (by simp)
  · simp only [] at h
    split at h
    · simp only [Except.ok.injEq, Prod.mk.injEq] at h
      obtain ⟨h1, h2⟩ := h
      exact ⟨h2.symm, h1.symm⟩
    · exact absurd h (by simp)

/-- Inversion of a successful managerActionOnRequest. -/
theorem managerActionOnRequest_ok_inv {db : DB} {input : ManagerActionInput} {now : Nat}
    {db2 : DB} {upd : Request}
    (h : managerActionOnRequest db input now = .ok (db2, upd)) :
    ∃ request, findRequest db input.request_id = some request ∧
      request.status = Status.pending ∧
      upd = { request with
          status := if input.action = ManagerAction.approve then Status.manager_approved
            else Status.manager_rejected
          manager_id := some input.manager_id
          manager_notes := jsStrOrNull input.notes
          updated_at := now } ∧
      db2 = updateRequest db input.request_id upd := by
  unfold managerActionOnRequest at h
  split at h
  · exact absurd h (by simp)
  next request hfr =>
    split at h
    next hp =>
      split at h
      · exact absurd h (by simp)
      · simp only [Except.ok.injEq, Prod.mk.injEq] at h
        obtain ⟨h1, h2⟩ := h
        subst h2
        exact ⟨request, hfr, hp, rfl, h1.symm⟩
    next hp => exact absurd h (by simp)

/-- Inversion of a successful adminProcessRequest. -/
theorem adminProcessRequest_ok_inv {db : DB} {input : AdminProcessInput} {now : Nat}
    {db2 : DB} {upd : Request}
    (h : adminProcessRequest db input now = .ok (db2, upd)) :
    ∃ adminUser request, findUser db input.admin_id = some adminUser ∧
      adminUser.role = Role.super_admin ∧
      findRequest db input.request_id = some request ∧
      input.action ∈ validTransitions request.status ∧
      upd = { request with
          status := adminActionTarget input.action
          admin_id := some input.admin_id
          updated_at := now
          admin_notes :=
            match input.notes with
            | some v => v
            | none => request.admin_notes
          actual_cost :=
            match input.actual_cost with
            | some v => v
            | none => request.actual_cost
          purchase_date :=
            match input.purchase_date with
            | some v => v
            | none => request.purchase_date
          received_date :=
            match input.received_date with
            | some v => v
            | none => request.received_date } ∧
      db2 = updateRequest db input.request_id upd := by
  unfold adminProcessRequest at h
  split at h
  · exact absurd h (by simp)
  next adminUser hfu =>
    split at h
    next hrole =>
      split at h
      · exact absurd h (by simp)
      next request hfr =>
        split at h
        next hmem =>
          simp only [Except.ok.injEq, Prod.mk.injEq] at h
          obtain ⟨h1, h2⟩ := h
          subst h2
          exact ⟨adminUser, request, hfu, hrole, hfr, hmem, rfl, h1.symm⟩
        next hmem => exact absurd h (by simp)
    next hrole => exact absurd h (by simp)

/-- One call preserves a non-pending status and the manager fields of an
existing request. -/
theorem applyOp_preserves_past_manager (db : DB) (op : Op) (i : Nat) (r : Request)
    (hfind : findRequest db i = some r) (hst : r.status ≠ Status.pending) :
    ∃ r2, findRequest (applyOp db op) i = some r2 ∧ r2.status ≠ Status.pending ∧
      r2.manager_id = r.manager_id ∧ r2.manager_notes = r.manager_notes := by
  cases op with
  | create input now =>
    cases hc : createRequest db input now with
    | error e =>
      refine ⟨r, ?_, hst, rfl, rfl⟩
      simpa only [applyOp, hc] using hfind
    | ok p =>
      obtain ⟨db2, req⟩ := p
      obtain ⟨-, hdb2⟩ := createRequest_ok_inv hc
      refine ⟨r, ?_, hst, rfl, rfl⟩
      simp only [applyOp, hc]
      show findRequest db2 i = some r
      rw [hdb2]
      exact find?_append_some _ _ hfind
  | manager input now =>
    cases hm : managerActionOnRequest db input now with
    | error e =>
      refine ⟨r, ?_, hst, rfl, rfl⟩
      simpa only [applyOp, hm] using hfind
    | ok p =>
      obtain ⟨db2, upd⟩ := p
      obtain ⟨request, hfr, hp, hupd, hdb2⟩ := managerActionOnRequest_ok_inv hm
      have hupdid : upd.id = input.request_id := by
        rw [hupd]
        show request.id = input.request_id
        exact findRequest_id hfr
      by_cases hri : r.id = input.request_id
      · have hi : i = input.request_id := by
          rw [← findRequest_id hfind]; exact hri
        subst hi
        rw [hfind] at hfr
        injection hfr with hreq
        rw [← hreq] at hp
        exact absurd hp hst
      · refine ⟨r, ?_, hst, rfl, rfl⟩
        simp only [applyOp, hm]
        show findRequest db2 i = some r
        rw [hdb2, findRequest_updateRequest db input.request_id upd hupdid i, hfind]
        simp [if_neg hri]
  | admin input now =>
    cases ha : adminProcessRequest db input now with
    | error e =>
      refine ⟨r, ?_, hst, rfl, rfl⟩
      simpa only [applyOp, ha] using hfind
    | ok p =>
      obtain ⟨db2, upd⟩ := p
      obtain ⟨adminUser, request, hfu, hrole, hfr, hmem, hupd, hdb2⟩ :=
        adminProcessRequest_ok_inv ha
      have hupdid : upd.id = input.request_id := by
        rw [hupd]
        show request.id = input.request_id
        exact findRequest_id hfr
      by_cases hri : r.id = input.request_id
      · have hi : i = input.request_id := by
          rw [← findRequest_id hfind]; exact hri
        subst hi
        rw [hfind] at hfr
        injection hfr with hreq
        subst hreq
        refine ⟨upd, ?_, ?_, ?_, ?_⟩
        · simp only [applyOp, ha]
          show findRequest db2 input.request_id = some upd
          rw [hdb2, findRequest_updateRequest db input.request_id upd hupdid, hfind]
          simp [if_pos hri]
        · rw [hupd]
          exact adminActionTarget_ne_pending input.action
        · rw [hupd]
        · rw [hupd]
      · refine ⟨r, ?_, hst, rfl, rfl⟩
        simp only [applyOp, ha]
        show findRequest db2 i = some r
        rw [hdb2, findRequest_updateRequest db input.request_id upd hupdid i, hfind]
        simp [if_neg hri]

/-- Call sequences preserve a non-pending status and the manager fields. -/
theorem runOps_preserves_past_manager (db : DB) (ops : List Op) (i : Nat) (r : Request)
    (hfind : findRequest db i = some r) (hst : r.status ≠ Status.pending) :
    ∃ r2, findRequest (runOps db ops) i = some r2 ∧ r2.status ≠ Status.pending ∧
      r2.manager_id = r.manager_id ∧ r2.manager_notes = r.manager_notes := by
  induction ops generalizing db r with
  | nil => exact ⟨r, hfind, hst, rfl, rfl⟩
  | cons op rest ih =>
    obtain ⟨r1, h1, h2, h3, h4⟩ := applyOp_preserves_past_manager db op i r hfind hst
    obtain ⟨r2, g1, g2, g3, g4⟩ := ih (applyOp db op) r1 h1 h2
    exact ⟨r2, g1, g2, g3.trans h3, g4.trans h4⟩

/-! ## Theorems -/

/-- C1: under a resolved super-admin and a found request, adminProcessRequest
performs a status change exactly when the (current status, action) pair is in
the transition table enumerated by the specification; for every other pair it
fails with an InvalidState error whose message names both the rejected action
and the current status, leaving the state unchanged. -/
theorem adminProcessRequest_transition_table :
    ∀ (db : DB) (input : AdminProcessInput) (now : Nat) (adminUser : User) (r : Request),
      findUser db input.admin_id = some adminUser →
      adminUser.role = Role.super_admin →
      findRequest db input.request_id = some r →
      ((∃ db2 updated, adminProcessRequest db input now = .ok (db2, updated) ∧
          updated.status = adminActionTarget input.action ∧ updated.status ≠ r.status) ↔
        (r.status, input.action) ∈ specAdminTransitionPairs) ∧
      ((r.status, input.action) ∉ specAdminTransitionPairs →
        adminProcessRequest db input now = .error (.invalidState input.action r.status) ∧
        (∃ p q, adminErrMessage (.invalidState input.action r.status) =
          p ++ adminActionName input.action ++ q ++ statusName r.status) ∧
        applyOp db (.admin input now) = db) := by
  intro db input now adminUser r hfu hrole hfr
  have hform := adminProcessRequest_eq_form db input now adminUser r hfu hrole hfr
  by_cases hmem : input.action ∈ validTransitions r.status
  · rw [if_pos hmem] at hform
    constructor
    · exact iff_of_true
        ⟨_, _, hform, rfl, adminActionTarget_ne_source r.status input.action hmem⟩
        ((mem_specAdminTransitionPairs r.status input.action).mpr hmem)
    · intro hn
      exact absurd ((mem_specAdminTransitionPairs r.status input.action).mpr hmem) hn
  · rw [if_neg hmem] at hform
    constructor
    · apply iff_of_false
      · rintro ⟨db2, updated, heq, -, -⟩
        rw [hform] at heq
        exact Except.noConfusion heq
      · intro hsp
        exact hmem ((mem_specAdminTransitionPairs r.status input.action).mp hsp)
    · intro _
      exact ⟨hform, ⟨"Cannot perform action ", " on request with status ", rfl⟩,
        applyOp_admin_error db input now _ hform⟩


/-- C2: a manager decision is accepted only on a pending request, and on a
found request that is not pending it fails with the InvalidState
(notPending) error naming the request and its current status; once a
request's status is not pending it never becomes pending again under any
sequence of core operations and its manager_id/manager_notes never change
(so they are written exactly once, by the single successful manager
decision, which sets them); and no successful admin processing ever writes
the manager fields. -/
theorem manager_gate_invariant :
    (∀ (db : DB) (input : ManagerActionInput) (now : Nat) (db2 : DB) (req : Request),
        managerActionOnRequest db input now = .ok (db2, req) →
        ∃ r, findRequest db input.request_id = some r ∧ r.status = Status.pending ∧
          req.manager_id = some input.manager_id ∧
          req.manager_notes = jsStrOrNull input.notes ∧
          (req.status = Status.manager_approved ∨ req.status = Status.manager_rejected)) ∧
    (∀ (db : DB) (input : ManagerActionInput) (now : Nat) (r : Request),
        findRequest db input.request_id = some r → r.status ≠ Status.pending →
        managerActionOnRequest db input now =
          .error (.notPending input.request_id r.status)) ∧
    (∀ (db : DB) (i : Nat) (r : Request) (ops : List Op),
        findRequest db i = some r → r.status ≠ Status.pending →
        ∃ r2, findRequest (runOps db ops) i = some r2 ∧ r2.status ≠ Status.pending ∧
          r2.manager_id = r.manager_id ∧ r2.manager_notes = r.manager_notes) ∧
    (∀ (db : DB) (input : AdminProcessInput) (now : Nat) (db2 : DB) (upd r : Request),
        adminProcessRequest db input now = .ok (db2, upd) →
        findRequest db input.request_id = some r →
        upd.manager_id = r.manager_id ∧ upd.manager_notes = r.manager_notes) := by
  refine ⟨?_, ?_, ?_, ?_⟩
  · intro db input now db2 req h
    obtain ⟨request, hfr, hp, hupd, -⟩ := managerActionOnRequest_ok_inv h
    subst hupd
    refine ⟨request, hfr, hp, rfl, rfl, ?_⟩
    by_cases ha : input.action = ManagerAction.approve
    · left; simp [ha]
    · right; simp [ha]
  · intro db input now r hfr hst
    simp only [managerActionOnRequest, hfr, if_neg hst]
  · intro db i r ops hfind hst
    exact runOps_preserves_past_manager db ops i r hfind hst
  · intro db input now db2 upd r hok hfr
    obtain ⟨adminUser, request, -, -, hfr2, -, hupd, -⟩ := adminProcessRequest_ok_inv hok
    rw [hfr] at hfr2
    injection hfr2 with hreq
    subst hupd
    rw [← hreq]
    exact ⟨rfl, rfl⟩

/-- C2 witness: on a database whose request 1 is already manager_approved
with manager 2 and notes "ok", a second manager attempt fails with the
notPending (InvalidState) error, and running an admin action followed by
that doomed manager attempt leaves the request non-pending with its manager
fields intact. -/
theorem manager_gate_invariant_witness :
    managerActionOnRequest c2db
        { request_id := 1, manager_id := 2, action := .approve, notes := some "again" } 5 =
      .error (.notPending 1 Status.manager_approved) ∧
    ∃ r2, findRequest (runOps c2db c2ops) 1 = some r2 ∧ r2.status ≠ Status.pending ∧
      r2.manager_id = some 2 ∧ r2.manager_notes = some "ok" := by
  have herr := manager_gate_invariant.2.1 c2db
    { request_id := 1, manager_id := 2, action := .approve, notes := some "again" } 5
    c2req rfl (by decide)
  have h := manager_gate_invariant.2.2.1 c2db 1 c2req c2ops rfl (by decide)
  exact ⟨herr, h⟩

/-- C10: on every successful adminProcessRequest, each of actual_cost,
purchase_date and received_date supplied in the payload overwrites the
stored field no matter which action runs, admin_notes is overwritten exactly
when supplied, status/admin_id/updated_at are always set, every other field
of the request is unchanged, and the persisted state is exactly the one-row
update. -/
theorem adminProcessRequest_update_fields :
    ∀ (db : DB) (input : AdminProcessInput) (now : Nat) (db2 : DB) (updated r : Request),
      adminProcessRequest db input now = .ok (db2, updated) →
      findRequest db input.request_id = some r →
      updated.status = adminActionTarget input.action ∧
      updated.admin_id = some input.admin_id ∧
      updated.updated_at = now ∧
      updated.admin_notes =
        (match input.notes with
          | some v => v
          | none => r.admin_notes) ∧
      updated.actual_cost =
        (match input.actual_cost with
          | some v => v
          | none => r.actual_cost) ∧
      updated.purchase_date =
        (match input.purchase_date with
          | some v => v
          | none => r.purchase_date) ∧
      updated.received_date =
        (match input.received_date with
          | some v => v
          | none => r.received_date) ∧
      updated.id = r.id ∧ updated.staff_id = r.staff_id ∧ updated.title = r.title ∧
      updated.justification = r.justification ∧ updated.manager_id = r.manager_id ∧
      updated.manager_notes = r.manager_notes ∧
      updated.total_estimated_cost = r.total_estimated_cost ∧
      updated.created_at = r.created_at ∧
      db2 = updateRequest db input.request_id updated := by
  intro db input now db2 updated r hok hfr
  obtain ⟨adminUser, request, -, -, hfr2, -, hupd, hdb2⟩ := adminProcessRequest_ok_inv hok
  rw [hfr] at hfr2
  injection hfr2 with hreq
  subst hreq
  subst hupd
  exact ⟨rfl, rfl, rfl, rfl, rfl, rfl, rfl, rfl, rfl, rfl, rfl, rfl, rfl, rfl, rfl, hdb2⟩

/-- C10 witness: cancelling the manager_approved request 1 with actual_cost
25.99 in the payload overwrites actual_cost even on a cancel, sets the
status and admin fields, and leaves the manager fields and the rest of the
row unchanged. -/
theorem adminProcessRequest_update_fields_witness :
    c10upd.actual_cost = some 2599 ∧ c10upd.status = Status.cancelled ∧
      c10upd.manager_id = c1req.manager_id ∧ c10upd.created_at = c1req.created_at := by
  obtain ⟨h1, h2, h3, h4, h5, h6, h7, h8, h9, h10, h11, h12, h13, h14, h15, h16⟩ :=
    adminProcessRequest_update_fields c1db c10input 11 c10db2 c10upd c1req rfl rfl
  exact ⟨h5, h1, h12, h15⟩

/-- C1 witness: mark_purchased straight from manager_approved is rejected
with an InvalidState error naming both, and the state is unchanged. -/
theorem adminProcessRequest_transition_table_witness :
    adminProcessRequest c1db c1input 9 =
        .error (.invalidState AdminAction.mark_purchased Status.manager_approved) ∧
      applyOp c1db (.admin c1input 9) = c1db := by
  have h := adminProcessRequest_transition_table c1db c1input 9 _ _ rfl rfl rfl
  have h2 := h.2 (by simp [c1req, c1input, specAdminTransitionPairs])
  exact ⟨h2.1, h2.2.2⟩

/-- C7: adminProcessRequest rejects the call with one of the two
authorization errors exactly when the acting id does not resolve to a user
or resolves to a user whose role is not super_admin — the active flag plays
no part — and any failure leaves the state unchanged. -/
theorem adminProcessRequest_forbidden_iff :
    ∀ (db : DB) (input : AdminProcessInput) (now : Nat),
      ((adminProcessRequest db input now = .error .adminNotFound ∨
          adminProcessRequest db input now = .error .notSuperAdmin) ↔
        (findUser db input.admin_id = none ∨
          ∃ u, findUser db input.admin_id = some u ∧ u.role ≠ Role.super_admin)) ∧
      (∀ e, adminProcessRequest db input now = .error e →
        applyOp db (.admin input now) = db) := by
  intro db input now
  refine ⟨?_, fun e he => applyOp_admin_error db input now e he⟩
  cases hfu : findUser db input.admin_id with
  | none =>
    have hres : adminProcessRequest db input now = .error .adminNotFound := by
      simp only [adminProcessRequest, hfu]
    exact iff_of_true (Or.inl hres) (Or.inl rfl)
  | some u =>
    by_cases hrole : u.role = Role.super_admin
    · apply iff_of_false
      · have himp : ∀ e2 : AdminErr, adminProcessRequest db input now = .error e2 →
            e2 = .adminNotFound ∨ e2 = .notSuperAdmin → False := by
          intro e2 he2 hcase
          cases hfr : findRequest db input.request_id with
          | none =>
            have hres : adminProcessRequest db input now = .error .requestNotFound := by
              simp only [adminProcessRequest, hfu, hrole, hfr, eq_self_iff_true, if_true]
            rw [hres] at he2
            injection he2 with he3
            rcases hcase with h | h <;> subst he3 <;> exact AdminErr.noConfusion h
          | some r =>
            have hform := adminProcessRequest_eq_form db input now u r hfu hrole hfr
            by_cases hmem : input.action ∈ validTransitions r.status
            · rw [if_pos hmem] at hform
              rw [hform] at he2
              exact Except.noConfusion he2
            · rw [if_neg hmem] at hform
              rw [hform] at he2
              injection he2 with he3
              rcases hcase with h | h <;> subst he3 <;> exact AdminErr.noConfusion h
        rintro (h | h)
        · exact himp _ h (Or.inl rfl)
        · exact himp _ h (Or.inr rfl)
      · rintro (h | ⟨u2, hu2, hru2⟩)
        · exact Option.noConfusion h
        · injection hu2 with huu
          rw [← huu] at hru2
          exact hru2 hrole
    · have hres : adminProcessRequest db input now = .error .notSuperAdmin := by
        simp only [adminProcessRequest, hfu, if_neg hrole]
      exact iff_of_true (Or.inr hres) (Or.inr ⟨u, rfl, hrole⟩)

/-- C7 witness: on an empty user directory the call fails with the
admin-not-found error and the state is unchanged. -/
theorem adminProcessRequest_forbidden_iff_witness :
    applyOp c7wdb (.admin c7input 0) = c7wdb :=
  (adminProcessRequest_forbidden_iff c7wdb c7input 0).2 .adminNotFound rfl

/-- Match-form price presence equals isSome of the flattened lookup. -/
theorem optJoin_isSome (o : Option (Option Int)) :
    (match o with
      | some (some _) => true
      | _ => false) = o.join.isSome := by
  rcases o with _ | (_ | p) <;> rfl

/-- Mapped-list all in terms of the original list. -/
theorem all_map_general {α β : Type} (l : List α) (g : α → β) (p : β → Bool) :
    (l.map g).all p = l.all (fun a => p (g a)) := by
  induction l with
  | nil => rfl
  | cons a t ih => simp [List.all_cons, ih]

/-- Predicate over the enumerated list seen through the second component. -/
theorem all_enumFrom_snd {α : Type} (l : List α) (n : Nat) (f : α → Bool) :
    (l.enumFrom n).all (fun p => f p.2) = l.all f := by
  induction l generalizing n with
  | nil => rfl
  | cons a t ih => simp [List.enumFrom, List.all_cons, ih]

/-- Predicate over the enumerated list seen through the second component. -/
theorem all_enum_snd {α : Type} (l : List α) (f : α → Bool) :
    l.enum.all (fun p => f p.2) = l.all f :=
  all_enumFrom_snd l 0 f

/-- Fold over the enumerated list seen through the second component. -/
theorem foldl_enumFrom_snd {α β : Type} (l : List α) (n : Nat) (f : β → α → β) (b : β) :
    (l.enumFrom n).foldl (fun s p => f s p.2) b = l.foldl f b := by
  induction l generalizing n b with
  | nil => rfl
  | cons a t ih => simp [List.enumFrom, List.foldl_cons, ih]

/-- Fold over the enumerated list seen through the second component. -/
theorem foldl_enum_snd {α β : Type} (l : List α) (f : β → α → β) (b : β) :
    l.enum.foldl (fun s p => f s p.2) b = l.foldl f b :=
  foldl_enumFrom_snd l 0 f b

/-- Snapshot non-nullness of the inserted line items coincides with the
handler's hasAllPrices test. -/
theorem createRequestLineItems_all_isSome (db : DB) (input : CreateRequestInput) (now : Nat) :
    (createRequestLineItems db input now).all (fun ri => ri.estimated_unit_cost.isSome) =
      hasAllPrices (foundActiveItems db (input.items.map (fun ri => ri.item_id)))
        input.items := by
  unfold createRequestLineItems hasAllPrices
  rw [all_map_general]
  have h2 : (fun ri : CreateRequestItemInput =>
      match itemPriceMapGet (foundActiveItems db (input.items.map (fun ri => ri.item_id)))
          ri.item_id with
      | some (some _) => true
      | _ => false) =
      (fun ri : CreateRequestItemInput =>
        ((itemPriceMapGet (foundActiveItems db (input.items.map (fun ri => ri.item_id)))
          ri.item_id).join).isSome) := by
    funext ri
    exact optJoin_isSome _
  rw [h2]
  exact all_enum_snd input.items
    (fun ri => ((itemPriceMapGet
      (foundActiveItems db (input.items.map (fun ri => ri.item_id))) ri.item_id).join).isSome)

/-- Sum of snapshot cost times quantity over the inserted line items
coincides with the handler's reduce. -/
theorem createRequestLineItems_snapshotTotal (db : DB) (input : CreateRequestInput)
    (now : Nat) :
    snapshotTotal (createRequestLineItems db input now) =
      totalOfLineItems (foundActiveItems db (input.items.map (fun ri => ri.item_id)))
        input.items := by
  unfold snapshotTotal createRequestLineItems totalOfLineItems
  rw [List.foldl_map]
  exact foldl_enum_snd input.items
    (fun s ri => s + ((itemPriceMapGet
      (foundActiveItems db (input.items.map (fun ri => ri.item_id)))
        ri.item_id).join.getD 0) * (ri.quantity : Int)) 0

/-- Stored total of the inserted request row in terms of the price test and
the computed sum. -/
theorem createRequestRow_total (db : DB) (input : CreateRequestInput) (now : Nat) :
    (createRequestRow db input now).total_estimated_cost =
      (if hasAllPrices (foundActiveItems db (input.items.map (fun ri => ri.item_id)))
            input.items = true ∧
          totalOfLineItems (foundActiveItems db (input.items.map (fun ri => ri.item_id)))
            input.items ≠ 0
        then some (totalOfLineItems
            (foundActiveItems db (input.items.map (fun ri => ri.item_id))) input.items)
        else none) := by
  unfold createRequestRow
  cases hall : hasAllPrices (foundActiveItems db (input.items.map (fun ri => ri.item_id)))
      input.items with
  | false => simp [hall]
  | true =>
    by_cases hz : totalOfLineItems
        (foundActiveItems db (input.items.map (fun ri => ri.item_id))) input.items = 0
    · simp [hall, hz]
    · simp [hall, hz]

/-- C3 (amended): on every successful creation the inserted line items are
appended, and the persisted total_estimated_cost equals the sum of snapshot
unit cost times quantity exactly when every snapshot is non-null and the sum
is nonzero; it is null when any snapshot is null or when the sum is zero
(the zero total falls into the falsy branch of the store). -/
theorem createRequest_total_estimated_cost :
    ∀ (db : DB) (input : CreateRequestInput) (now : Nat) (db2 : DB) (req : Request),
      createRequest db input now = .ok (db2, req) →
      db2.request_items = db.request_items ++ createRequestLineItems db input now ∧
      req.total_estimated_cost =
        (if (createRequestLineItems db input now).all
              (fun ri => ri.estimated_unit_cost.isSome) = true ∧
            snapshotTotal (createRequestLineItems db input now) ≠ 0
          then some (snapshotTotal (createRequestLineItems db input now)) else none) := by
  intro db input now db2 req h
  obtain ⟨hreq, hdb2⟩ := createRequest_ok_inv h
  subst hreq
  constructor
  · rw [hdb2]
  · rw [createRequestRow_total, createRequestLineItems_all_isSome,
      createRequestLineItems_snapshotTotal]

/-- C3 witness: the round-trip creation has all snapshots non-null and a
nonzero sum, so its stored total is exactly that sum. -/
theorem createRequest_total_estimated_cost_witness :
    c9req.total_estimated_cost = some (snapshotTotal (createRequestLineItems c9db c9input 0)) ∧
      c9db2.request_items = c9db.request_items ++ createRequestLineItems c9db c9input 0 := by
  have h := createRequest_total_estimated_cost c9db c9input 0 c9db2 c9req rfl
  refine ⟨h.2.trans ?_, h.1⟩
  rfl

/-- C8: getStaffRequests raises NotFound for an unknown staff id, returns
the empty list for an existing user with zero requests — the two outcomes
are distinguishable — and its results are ordered by created_at
descending. -/
theorem getStaffRequests_spec :
    ∀ (db : DB) (staffId : Nat),
      (findUser db staffId = none →
        getStaffRequests db staffId = .error (.staffNotFound staffId)) ∧
      (∀ u, findUser db staffId = some u →
        db.requests.filter (fun r => r.staff_id == staffId) = [] →
        getStaffRequests db staffId = .ok []) ∧
      (∀ l, getStaffRequests db staffId = .ok l →
        (l.map (fun d => d.base)).Sorted byCreatedAtDesc) := by
  intro db staffId
  refine ⟨?_, ?_, ?_⟩
  · intro h
    simp only [getStaffRequests, h]
  · intro u hu hfil
    simp only [getStaffRequests, hu, hfil]
    rfl
  · intro l hl
    cases hu : findUser db staffId with
    | none =>
      rw [getStaffRequests, hu] at hl
      exact Except.noConfusion hl
    | some u =>
      simp only [getStaffRequests, hu, Except.ok.injEq] at hl
      rw [← hl, List.map_map]
      show List.Pairwise _ _
      rw [List.pairwise_map]
      have hs := List.sorted_insertionSort byCreatedAtDesc
        (db.requests.filter (fun r => r.staff_id == staffId))
      exact hs

/-- C8 witness: id 99 resolves to no user and errors; user 2 exists with zero
requests and gets the empty list; user 1's results are sorted by created_at
descending. -/
theorem getStaffRequests_spec_witness :
    getStaffRequests c8db 99 = .error (.staffNotFound 99) ∧
      getStaffRequests c8db 2 = .ok [] ∧
      (c8list.map (fun d => d.base)).Sorted byCreatedAtDesc :=
  ⟨(getStaffRequests_spec c8db 99).1 rfl,
   (getStaffRequests_spec c8db 2).2.1 _ rfl rfl,
   (getStaffRequests_spec c8db 1).2.2 c8list rfl⟩

/-- Resolvability of every requested id together with distinctness is
equivalent to the handler's count comparison (assuming primary-key
uniqueness of item ids). -/
theorem foundActiveItems_length_iff (db : DB) (ids : List Nat)
    (hnodup : (db.items.map (fun it => it.id)).Nodup) :
    (foundActiveItems db ids).length = ids.length ↔
      (ids.Nodup ∧ ∀ iid ∈ ids, ∃ it ∈ db.items, it.id = iid ∧ it.is_active = true) := by
  have hfound_sub : (foundActiveItems db ids).Sublist db.items := List.filter_sublist _
  have hfids_nodup : ((foundActiveItems db ids).map (fun it => it.id)).Nodup :=
    List.Nodup.sublist (List.Sublist.map (fun it => it.id) hfound_sub) hnodup
  have hfids_sub : ∀ x ∈ (foundActiveItems db ids).map (fun it => it.id), x ∈ ids := by
    intro x hx
    obtain ⟨it, hit, rfl⟩ := List.mem_map.mp hx
    obtain ⟨-, hp⟩ := List.mem_filter.mp hit
    simp only [Bool.and_eq_true] at hp
    simpa using hp.1
  have hresolve_mem : ∀ iid ∈ ids,
      (∃ it ∈ db.items, it.id = iid ∧ it.is_active = true) →
      iid ∈ (foundActiveItems db ids).map (fun it => it.id) := by
    intro iid hiid ⟨it, hit, hid, hact⟩
    refine List.mem_map.mpr ⟨it, ?_, hid⟩
    refine List.mem_filter.mpr ⟨hit, ?_⟩
    simp only [Bool.and_eq_true]
    refine ⟨?_, hact⟩
    rw [hid]
    simpa using hiid
  constructor
  · intro hlen
    have hsubp : ((foundActiveItems db ids).map (fun it => it.id)).Subperm ids :=
      List.Nodup.subperm hfids_nodup hfids_sub
    have hperm : ((foundActiveItems db ids).map (fun it => it.id)).Perm ids := by
      refine hsubp.perm_of_length_le ?_
      rw [List.length_map, hlen]
    refine ⟨hperm.nodup_iff.mp hfids_nodup, ?_⟩
    intro iid hiid
    have hmem := hperm.mem_iff.mpr hiid
    obtain ⟨it, hit, rfl⟩ := List.mem_map.mp hmem
    obtain ⟨hitems, hp⟩ := List.mem_filter.mp hit
    simp only [Bool.and_eq_true] at hp
    exact ⟨it, hitems, rfl, hp.2⟩
  · rintro ⟨hnd, hres⟩
    have hperm : ((foundActiveItems db ids).map (fun it => it.id)).Perm ids := by
      refine (List.perm_ext_iff_of_nodup hfids_nodup hnd).mpr ?_
      intro x
      exact ⟨hfids_sub x, fun hx => hresolve_mem x hx (hres x hx)⟩
    have := hperm.length_eq
    rwa [List.length_map] at this

/-- C5 (amended): the item check of createRequest compares the count of
matching active item rows against the raw number of line items, so under
primary-key uniqueness it passes exactly when the requested item ids are
pairwise distinct and each resolves to an active item; in particular an
input that lists the same item id in two line items always fails the check
even when that id resolves. -/
theorem createRequest_item_validation :
    ∀ (db : DB) (input : CreateRequestInput) (now : Nat),
      (db.items.map (fun it => it.id)).Nodup →
      ((foundActiveItems db (input.items.map (fun ri => ri.item_id))).length =
          (input.items.map (fun ri => ri.item_id)).length ↔
        ((input.items.map (fun ri => ri.item_id)).Nodup ∧
          ∀ iid ∈ input.items.map (fun ri => ri.item_id),
            ∃ it ∈ db.items, it.id = iid ∧ it.is_active = true)) ∧
      ((∃ u, db.users.find? (fun u2 => u2.id == input.staff_id && u2.is_active) = some u) →
        (createRequest db input now = .error .itemsNotFound ↔
          ¬((input.items.map (fun ri => ri.item_id)).Nodup ∧
            ∀ iid ∈ input.items.map (fun ri => ri.item_id),
              ∃ it ∈ db.items, it.id = iid ∧ it.is_active = true))) := by
  intro db input now hnodup
  have hiff := foundActiveItems_length_iff db (input.items.map (fun ri => ri.item_id)) hnodup
  refine ⟨hiff, ?_⟩
  rintro ⟨u, hu⟩
  by_cases hlen : (foundActiveItems db (input.items.map (fun ri => ri.item_id))).length =
      (input.items.map (fun ri => ri.item_id)).length
  · have hok : createRequest db input now =
        .ok ({ db with
            requests := db.requests ++ [createRequestRow db input now]
            request_items := db.request_items ++ createRequestLineItems db input now },
          createRequestRow db input now) := by
      simp only [createRequest, hu, hlen, eq_self_iff_true, if_true]
    apply iff_of_false
    · rw [hok]
      exact fun h => Except.noConfusion h
    · exact fun h => h (hiff.mp hlen)
  · have herr : createRequest db input now = .error .itemsNotFound := by
      simp only [createRequest, hu, if_neg hlen]
    exact iff_of_true herr (fun h => hlen (hiff.mpr h))

/-- C5 witness: with distinct, resolving item ids the check passes and the
creation does not fail with the items error. -/
theorem createRequest_item_validation_witness :
    createRequest c5db c5winput 0 ≠ .error .itemsNotFound ∧
      (foundActiveItems c5db (c5winput.items.map (fun ri => ri.item_id))).length =
        (c5winput.items.map (fun ri => ri.item_id)).length := by
  have h := createRequest_item_validation c5db c5winput 0 (by decide)
  have hcond : (c5winput.items.map (fun ri => ri.item_id)).Nodup ∧
      ∀ iid ∈ c5winput.items.map (fun ri => ri.item_id),
        ∃ it ∈ c5db.items, it.id = iid ∧ it.is_active = true := by
    refine ⟨by decide, ?_⟩
    intro iid hiid
    have : iid = 1 := by simpa [c5winput] using hiid
    subst this
    exact ⟨{ id := 1, name := "A", description := none, category_id := 1, unit := "piece",
             estimated_price := some 100, is_active := true }, by simp [c5db], rfl, rfl⟩
  constructor
  · intro hbad
    exact ((h.2 ⟨_, rfl⟩).mp hbad) hcond
  · exact h.1.mpr hcond

/-- C6 (amended): topCategories returns at most five entries, ordered by
distinct-request count descending; each entry is the aggregation of one
category, whose requestCount is the number of distinct requests appearing in
the joined line-item rows of that category and whose totalAmount is the sum
of actual_cost over those joined rows — one addend per line item, so a
request with several line items in the category contributes its actual_cost
once per line item, not once per request. -/
theorem topCategories_spec :
    ∀ db : DB,
      (getReportsTopCategories db).length ≤ 5 ∧
      (getReportsTopCategories db).Sorted byRequestCountDesc ∧
      ∀ e ∈ getReportsTopCategories db, ∃ cid,
        e = categoryStat db cid ∧
        e.requestCount = (dedupNat (((reportJoinRows db).filter
            (fun row => row.category_id == cid)).map (fun row => row.request_id))).length ∧
        e.totalAmount = ((reportJoinRows db).filter
            (fun row => row.category_id == cid)).foldl
          (fun s row => s + row.actual_cost.getD 0) 0 := by
  intro db
  refine ⟨List.length_take_le 5 _, ?_, ?_⟩
  · show List.Pairwise _ _
    exact List.Pairwise.sublist (List.take_sublist 5 _)
      (List.sorted_insertionSort byRequestCountDesc _)
  · intro e he
    have he2 := (List.take_sublist 5 _).subset he
    have he3 := (List.perm_insertionSort byRequestCountDesc _).subset he2
    obtain ⟨cid, hcid, rfl⟩ := List.mem_map.mp he3
    exact ⟨cid, rfl, rfl, rfl⟩

/-- C6 witness: on the double-count database the single entry is the
aggregation of category 1 with one distinct request. -/
theorem topCategories_spec_witness :
    ∃ cid, ({ categoryName := "X", requestCount := 1, totalAmount := 2000 } :
        TopCategoryEntry) = categoryStat c6db cid := by
  obtain ⟨cid, h1, -, -⟩ := (topCategories_spec c6db).2.2
    { categoryName := "X", requestCount := 1, totalAmount := 2000 } (by decide)
  exact ⟨cid, h1⟩

/-- C9: creating a request with line items (item priced 5.99, quantity 10)
and (item priced 12.50, quantity 2) persists a total_estimated_cost of
exactly 84.90 — 8490 cents in the fixed-point 2-decimal monetary
representation. -/
theorem createRequest_roundTrip_total :
    (createRequest c9db c9input 0).map (fun p => p.2.total_estimated_cost) =
      .ok (some 8490) :=
  rfl

/-- C3 counterexample: for a request whose single line item snapshots the
non-null price 0.00, every persisted snapshot price is non-null, the sum of
unit cost times quantity is 0, yet the persisted total_estimated_cost is
null rather than the sum — the claim's equation fails at this input. -/
theorem createRequest_zero_total_counterexample :
    (createRequest c3db c3input 0).map (fun p =>
        (p.1.request_items.all (fun ri => ri.estimated_unit_cost.isSome),
         snapshotTotal p.1.request_items,
         p.2.total_estimated_cost)) = .ok (true, 0, none) ∧
      (none : Option Int) ≠ some 0 :=
  ⟨rfl, by decide⟩

/-- C4: evaluation at the failing input: the creation input passes
validation, and when the line-items INSERT fails after the request INSERT has
executed, the request row of the failed attempt remains persisted while no
line item of the attempt does — a partial trace, contradicting the claimed
atomicity. -/
theorem createRequest_partial_persistence_on_items_insert_failure :
    (createRequest c4db c4input 0).isOk = true ∧
      (createRequestItemsInsertFailureDB c4db c4input 0).requests =
        c4db.requests ++ [createRequestRow c4db c4input 0] ∧
      (createRequestItemsInsertFailureDB c4db c4input 0).request_items =
        c4db.request_items :=
  ⟨rfl, rfl, rfl⟩

/-- C5 counterexample: every distinct requested item id resolves to an active
item, yet creation fails the item check, because the code compares the count
of found items against the raw number of line items, not the number of
distinct ids — duplicated item ids always fail. -/
theorem createRequest_duplicate_item_counterexample :
    (dedupNat (c5input.items.map (fun ri => ri.item_id))).all
        (fun iid => c5db.items.any (fun it => it.id == iid && it.is_active)) = true ∧
      createRequest c5db c5input 0 = .error .itemsNotFound :=
  ⟨rfl, rfl⟩

/-- C6 counterexample: one request with actual cost 10.00 and two line items
in the same category is reported with requestCount 1 but totalAmount 20.00 —
the join doubles the request's actual cost — whereas summing actual_cost once
per distinct request yields 10.00. -/
theorem topCategories_double_count_counterexample :
    getReportsTopCategories c6db =
        [{ categoryName := "X", requestCount := 1, totalAmount := 2000 }] ∧
      (dedupNat (((reportJoinRows c6db).filter
            (fun row => row.category_id == 1)).map (fun row => row.request_id))).foldl
          (fun s rid => s + (((findRequest c6db rid).bind (fun r => r.actual_cost)).getD 0)) 0
        = (1000 : Int) ∧
      (2000 : Int) ≠ 1000 :=
  ⟨rfl, rfl, by decide⟩

/-- C7 counterexample: the acting user is a super_admin with is_active =
false, yet adminProcessRequest succeeds and performs the transition — the
handler never consults the active flag, so the claimed Forbidden failure for
inactive super admins does not happen. -/
theorem adminProcessRequest_inactive_admin_counterexample :
    (findUser c7db c7input.admin_id).map (fun u => (u.role, u.is_active)) =
        some (.super_admin, false) ∧
      (adminProcessRequest c7db c7input 5).map (fun p => p.2.status) =
        .ok .admin_processing :=
  ⟨rfl, rfl⟩

end Procurement
